import Mathlib

/-
Verification of the EV Recharge Bunk client-side auth/session subsystem.

The development below is a shallow embedding of the JavaScript sources:
  * src/unnamed/part_000      (class AuthManager)
  * src/js/main.js            (class FormValidator)
  * src/config/firebase-config.js (authMethods.checkAdminRole, databaseSchema.adminUsers)

Modelling conventions:
  * Browser storage tiers (localStorage = durable, sessionStorage = per-tab)
    are association lists from key strings to stored values.
  * A stored value is either the JSON serialization of a Session Record
    (constructor StoredVal.sess, which JSON.parse recovers exactly and which
    is a nonempty, hence truthy, string) or some other raw string
    (constructor StoredVal.str, on which JSON.parse fails and the catch
    branch runs; the empty raw string is the one falsy string value).
  * Failure injection: the Firestore getDoc rejection inside checkAdminRole
    is a boolean parameter lookupFails; a localStorage.setItem exception
    (quota) inside storeUserSession is a boolean parameter storeThrows on
    the login handler.
  * Notifications and window.location navigations are recorded as a list of
    effects; console logging is not modelled.
  * Date.now() is passed in as a natural number parameter.
-/

/-- JS whitespace class, as matched by the regex escape for whitespace
(space, tab, line feed, carriage return, vertical tab, form feed, NBSP,
the Unicode space separators, line and paragraph separators, BOM). -/
def isJsSpace (c : Char) : Bool :=
  c == ' ' || c == '\t' || c == '\n' || c == '\r' ||
  c == Char.ofNat 11 || c == Char.ofNat 12 || c == Char.ofNat 0xA0 ||
  c == Char.ofNat 0x1680 ||
  (Char.ofNat 0x2000 ≤ c && c ≤ Char.ofNat 0x200A) ||
  c == Char.ofNat 0x2028 || c == Char.ofNat 0x2029 || c == Char.ofNat 0x202F ||
  c == Char.ofNat 0x205F || c == Char.ofNat 0x3000 || c == Char.ofNat 0xFEFF

/-- String.prototype.trim: drop JS whitespace from both ends. -/
def jsTrim (s : String) : String :=
  String.mk (((s.data.dropWhile isJsSpace).reverse.dropWhile isJsSpace).reverse)

/-- Whether the pattern list is a prefix of the second list (boolean). -/
def begMatch : List Char → List Char → Bool
  | [], _ => true
  | _ :: _, [] => false
  | p :: ps, c :: cs => p == c && begMatch ps cs

/-- Whether the pattern list occurs contiguously inside the second list. -/
def subMatch : List Char → List Char → Bool
  | pat, [] => begMatch pat []
  | pat, c :: cs => begMatch pat (c :: cs) || subMatch pat cs

/-- String.prototype.includes(pat): substring containment test. -/
def jsIncludes (s pat : String) : Bool :=
  subMatch pat.data s.data

/-- All decompositions of a list into a prefix and a suffix, in order. -/
def splits : List Char → List (List Char × List Char)
  | [] => [([], [])]
  | c :: cs => ([], c :: cs) :: (splits cs).map (fun p => (c :: p.1, p.2))

/-- Character class of the email regex atoms: anything but whitespace and
the at sign. -/
def emailAtomChar (c : Char) : Bool :=
  !(isJsSpace c) && c != '@'

/-- Matcher for the email regex tail after the at sign: one or more atom
characters, a literal dot, one or more atom characters. -/
def emailTailMatch (r : List Char) : Bool :=
  (splits r).any (fun p =>
    !p.1.isEmpty && p.1.all emailAtomChar &&
    (match p.2 with
     | '.' :: c2 => !c2.isEmpty && c2.all emailAtomChar
     | _ => false))

/-- FormValidator email rule regex (anchored): one or more atom characters,
a literal at sign, then the tail matcher. The match exists iff some split
witnesses it. -/
def emailTest (s : String) : Bool :=
  (splits s.data).any (fun p =>
    !p.1.isEmpty && p.1.all emailAtomChar &&
    (match p.2 with
     | '@' :: r => emailTailMatch r
     | _ => false))

/-- Character class of the phone regex: digit, JS whitespace, hyphen, or
parenthesis. -/
def phoneClassChar (c : Char) : Bool :=
  ('0' ≤ c && c ≤ '9') || isJsSpace c || c == '-' || c == '(' || c == ')'

/-- FormValidator phone rule regex (anchored): an optional leading plus sign
followed by at least ten characters of the phone class. Since the plus sign
is not in the class, a leading plus is consumed by the optional atom exactly
when present. -/
def phoneTest (s : String) : Bool :=
  let core := match s.data with
    | '+' :: rest => rest
    | cs => cs
  decide (10 ≤ core.length) && core.all phoneClassChar

/-- Identity-provider user handle: the fields of the Firebase user object
that AuthManager reads (uid, email, displayName). -/
structure User where
  uid : String
  email : String
  displayName : Option String
deriving DecidableEq

/-- Admin role descriptor returned by checkAdminRole; role and permissions
are absent (undefined) on the non-admin path, error is set only when the
lookup rejected. -/
structure AdminCheck where
  isAdmin : Bool
  role : Option String := none
  permissions : Option (List String) := none
  error : Option String := none
deriving DecidableEq

/-- Document shape of the adminUsers collection per databaseSchema. -/
structure AdminDoc where
  adminId : String
  email : String
  role : String
  permissions : List String
  isActive : Bool
  createdAt : Nat
  lastLogin : Nat
deriving DecidableEq

/-- Firestore adminUsers collection: document id paired with its data. -/
abbrev AdminDb := List (String × AdminDoc)

/-- Firestore document fetch by id: getDoc on the adminUsers collection. -/
def dbLookup (db : AdminDb) (userId : String) : Option AdminDoc :=
  (db.find? (fun p => p.1 == userId)).map (fun p => p.2)

/-- authMethods.checkAdminRole from src/config/firebase-config.js: when the
underlying getDoc rejects, the internal catch returns isAdmin false with an
error message; when the document exists, returns isAdmin true with its role
and permissions; otherwise isAdmin false. -/
def checkAdminRole (db : AdminDb) (lookupFails : Bool) (userId : String) : AdminCheck :=
  if lookupFails then
    { isAdmin := false, error := some "lookup error" }
  else
    match dbLookup db userId with
    | some adminData =>
        { isAdmin := true, role := some adminData.role,
          permissions := some adminData.permissions }
    | none => { isAdmin := false }

/-- Session Record persisted by storeUserSession. -/
structure SessionData where
  userId : String
  email : String
  displayName : Option String
  isAdmin : Bool
  role : Option String
  permissions : List String
  loginTime : Nat
deriving DecidableEq

/-- Value held in a browser storage tier under some key: either the JSON
serialization of a Session Record, or any other raw string (on which a
session parse fails). -/
inductive StoredVal where
  | sess (s : SessionData)
  | str (raw : String)
deriving DecidableEq

/-- JS truthiness of a stored string: the serialized record is nonempty
hence truthy; a raw string is truthy iff nonempty. -/
def truthyVal : StoredVal → Bool
  | .sess _ => true
  | .str raw => raw != ""

/-- JSON.parse of a stored string as a Session Record: succeeds exactly on
a serialized record; on any other string the parse throws (modelled none). -/
def parseSession : StoredVal → Option SessionData
  | .sess s => some s
  | .str _ => none

/-- Browser storage tier: association list from keys to stored values. -/
abbrev Store := List (String × StoredVal)

/-- Storage.getItem: the first binding of the key, null when absent. -/
def getItem : Store → String → Option StoredVal
  | [], _ => none
  | p :: t, k => if p.1 == k then some p.2 else getItem t k

/-- Storage.removeItem: drop every binding of the key. -/
def removeItem : Store → String → Store
  | [], _ => []
  | p :: t, k => if p.1 == k then removeItem t k else p :: removeItem t k

/-- Storage.setItem: replaces any previous binding of the key. -/
def setItem (m : Store) (k : String) (v : StoredVal) : Store :=
  (k, v) :: removeItem m k

/-- AuthManager state: currentUser and isAdmin fields plus the two browser
storage tiers (localS durable, sessionS per-tab). -/
structure AuthState where
  currentUser : Option User
  isAdmin : Bool
  localS : Store
  sessionS : Store
deriving DecidableEq

/-- Observable side effects: a notification (message, level) or a
window.location navigation. -/
inductive Effect where
  | notify (message level : String)
  | navigate (href : String)
deriving DecidableEq

/-- Storage key of the Session Record. -/
def sessionKey : String := "ev_bunk_session"

/-- Per-tab storage key of the intended destination. -/
def intendedKey : String := "ev_bunk_intended_destination"

/-- JS disjunction of two getItem results: the left one if present and
truthy, otherwise the right one. -/
def jsOrVal : Option StoredVal → Option StoredVal → Option StoredVal
  | some v, b => if truthyVal v then some v else b
  | none, b => b

/-- AuthManager.getStoredSession: read localStorage, fall back to
sessionStorage under JS truthiness, then JSON.parse inside try/catch and
return null on any parse failure. -/
def getStoredSession (st : AuthState) : Option SessionData :=
  match jsOrVal (getItem st.localS sessionKey) (getItem st.sessionS sessionKey) with
  | some v => if truthyVal v then parseSession v else none
  | none => none

/-- AuthManager.isAuthenticated: in-memory user set, or a stored session
readable from either tier. -/
def isAuthenticated (st : AuthState) : Bool :=
  st.currentUser.isSome || (getStoredSession st).isSome

/-- Session Record built by storeUserSession from the user handle and the
admin descriptor; the permissions field defaults to the empty list when the
descriptor carries none. -/
def mkSessionData (user : User) (adminCheck : AdminCheck) (now : Nat) : SessionData :=
  { userId := user.uid
    email := user.email
    displayName := user.displayName
    isAdmin := adminCheck.isAdmin
    role := adminCheck.role
    permissions := adminCheck.permissions.getD []
    loginTime := now }

/-- AuthManager.storeUserSession: serialize the Session Record and write it
to the durable tier only. -/
def storeUserSession (st : AuthState) (user : User) (adminCheck : AdminCheck)
    (now : Nat) : AuthState :=
  let v := StoredVal.sess (mkSessionData user adminCheck now)
  { st with localS := setItem st.localS sessionKey v }

/-- AuthManager.clearUserSession: remove the record from both tiers. -/
def clearUserSession (st : AuthState) : AuthState :=
  { st with
      localS := removeItem st.localS sessionKey
      sessionS := removeItem st.sessionS sessionKey }

/-- Session isAdmin access as the JS condition reads it: a missing session
is falsy, otherwise the record field. -/
def optSessionIsAdmin : Option SessionData → Bool
  | some s => s.isAdmin
  | none => false

/-- AuthManager.redirectToLogin: stash the current path into per-tab
storage under the intended-destination key, then navigate to the login page
selected by the role. -/
def redirectToLogin (st : AuthState) (path : String) (role : String) :
    List Effect × AuthState :=
  let loginPage := if role == "admin" then "admin-login.html" else "user-login.html"
  let st' := { st with sessionS := setItem st.sessionS intendedKey (StoredVal.str path) }
  ([Effect.navigate loginPage], st')

/-- AuthManager.validateAuth: read the stored session; if not authenticated
or no session, redirect to the login page of the required role and return
false; if admin is required and the session is not admin, notify and
redirect to admin login and return false; otherwise return true. Returns
the boolean result, the emitted effects, and the resulting state. -/
def validateAuth (st : AuthState) (path : String) (requiredRole : String) :
    Bool × List Effect × AuthState :=
  let session := getStoredSession st
  if !(isAuthenticated st) || session.isNone then
    let r := redirectToLogin st path requiredRole
    (false, r.1, r.2)
  else if requiredRole == "admin" && !(optSessionIsAdmin session) then
    let r := redirectToLogin st path "admin"
    (false, Effect.notify "Admin access required" "error" :: r.1, r.2)
  else
    (true, [], st)

/-- AuthManager.redirectAfterLogin: effects only, the state is unchanged.
Admin sessions on a login page go to the admin dashboard; otherwise the
non-admin branch redirects away from admin pages. -/
def redirectAfterLogin (st : AuthState) (path : String) : List Effect :=
  let session := getStoredSession st
  if optSessionIsAdmin session then
    if jsIncludes path "admin-login" || jsIncludes path "user-login" then
      [Effect.navigate "admin-dashboard.html"]
    else
      []
  else
    if jsIncludes path "admin-login" then
      [Effect.notify "Please use user login" "warning",
       Effect.navigate "user-login.html"]
    else if jsIncludes path "admin-dashboard" then
      [Effect.notify "Admin access required" "error",
       Effect.navigate "user-login.html"]
    else
      []

/-- AuthManager.handleUserLogin: sets currentUser, awaits checkAdminRole
(which never rejects: its internal catch resolves with isAdmin false), sets
isAdmin, stores the session, emits the success notification and the
redirect effects. When the storage write throws (storeThrows), the catch
block emits the failure notification; currentUser and isAdmin have already
been assigned at that point. -/
def handleUserLogin (db : AdminDb) (lookupFails storeThrows : Bool)
    (user : User) (now : Nat) (path : String) (st : AuthState) :
    AuthState × List Effect :=
  let st1 := { st with currentUser := some user }
  let adminCheck := checkAdminRole db lookupFails user.uid
  let st2 := { st1 with isAdmin := adminCheck.isAdmin }
  if storeThrows then
    (st2, [Effect.notify "Authentication failed" "error"])
  else
    let st3 := storeUserSession st2 user adminCheck now
    (st3, Effect.notify "Authentication successful!" "success" :: redirectAfterLogin st3 path)

/-- FormValidator rule set entry: optional pattern, optional minLength, the
required flag (no built-in rule defines it, hence false), and the message. -/
structure VRule where
  pattern : Option (String → Bool)
  minLength : Option Nat
  required : Bool
  message : String

/-- FormValidator.rules from src/js/main.js: email and phone carry a
pattern, password carries minLength 6; none defines required. -/
def vRules : String → Option VRule
  | "email" => some
      { pattern := some emailTest, minLength := none, required := false,
        message := "Please enter a valid email address" }
  | "phone" => some
      { pattern := some phoneTest, minLength := none, required := false,
        message := "Please enter a valid phone number" }
  | "password" => some
      { pattern := none, minLength := some 6, required := false,
        message := "Password must be at least 6 characters long" }
  | _ => none

/-- Result object of FormValidator.validate. -/
structure ValResult where
  isValid : Bool
  message : Option String
deriving DecidableEq

/-- FormValidator.validate(field, value, type): unknown type is valid; the
required branch fires on an empty or whitespace-only value; the pattern and
minLength branches are each guarded by the truthiness of the value (the
empty string is the falsy string) and by the truthiness of the rule field
(a zero minLength would be falsy). -/
def validate (field value ty : String) : ValResult :=
  match vRules ty with
  | none => { isValid := true, message := none }
  | some rule =>
    if rule.required && (value == "" || jsTrim value == "") then
      { isValid := false, message := some (field ++ " is required") }
    else if value != "" &&
        (match rule.pattern with
         | some p => !(p value)
         | none => false) then
      { isValid := false, message := some rule.message }
    else if value != "" &&
        (match rule.minLength with
         | some m => decide (0 < m) && decide (value.length < m)
         | none => false) then
      { isValid := false, message := some rule.message }
    else
      { isValid := true, message := none }

/-- Requirement flags of AuthManager.validatePasswordStrength, in the field
order of the source object. -/
structure Requirements where
  minLength : Bool
  hasUppercase : Bool
  hasLowercase : Bool
  hasNumbers : Bool
  hasSpecialChar : Bool
deriving DecidableEq

/-- Special character set of the password strength regex. -/
def specialChars : List Char :=
  ['!', '@', '#', '$', '%', '^', '&', '*', '(', ')', '_', '+', '-', '=',
   '[', ']', Char.ofNat 123, Char.ofNat 125, ';', Char.ofNat 39, ':',
   Char.ofNat 34, Char.ofNat 92, '|', ',', '.', '<', '>', '/', '?']

/-- Requirement flags computed from the password: length at least eight,
an ASCII uppercase letter, an ASCII lowercase letter, a digit, a special
character. -/
def reqOf (password : String) : Requirements :=
  { minLength := decide (8 ≤ password.length)
    hasUppercase := password.data.any (fun c => 'A' ≤ c && c ≤ 'Z')
    hasLowercase := password.data.any (fun c => 'a' ≤ c && c ≤ 'z')
    hasNumbers := password.data.any (fun c => '0' ≤ c && c ≤ '9')
    hasSpecialChar := password.data.any (fun c => specialChars.contains c) }

/-- Count of true requirement flags, in the Object.values order. -/
def strengthOf (r : Requirements) : Nat :=
  [r.minLength, r.hasUppercase, r.hasLowercase, r.hasNumbers, r.hasSpecialChar].count true

/-- Qualitative part of the strength result. -/
structure Feedback where
  level : String
  message : String
  feedback : List String
deriving DecidableEq

/-- AuthManager.getPasswordFeedback: unmet-requirement messages in rule
order, then the level and message from the strength thresholds. -/
def getPasswordFeedback (strength : Nat) (r : Requirements) : Feedback :=
  let fb :=
    (if !r.minLength then ["At least 8 characters"] else []) ++
    (if !r.hasUppercase then ["One uppercase letter"] else []) ++
    (if !r.hasLowercase then ["One lowercase letter"] else []) ++
    (if !r.hasNumbers then ["One number"] else []) ++
    (if !r.hasSpecialChar then ["One special character"] else [])
  if strength < 2 then
    { level := "weak", message := "Password is too weak", feedback := fb }
  else if strength < 4 then
    { level := "medium", message := "Password is okay", feedback := fb }
  else if strength < 5 then
    { level := "strong", message := "Password is strong", feedback := fb }
  else
    { level := "very-strong", message := "Password is very strong", feedback := fb }

/-- Full result object of AuthManager.validatePasswordStrength. -/
structure StrengthResult where
  requirements : Requirements
  strength : Nat
  isStrong : Bool
  feedback : Feedback
deriving DecidableEq

/-- AuthManager.validatePasswordStrength. -/
def validatePasswordStrength (password : String) : StrengthResult :=
  let r := reqOf password
  let strength := strengthOf r
  { requirements := r
    strength := strength
    isStrong := decide (4 ≤ strength)
    feedback := getPasswordFeedback strength r }

/-- Reading a key just written returns the written value. -/
theorem getItem_setItem_self (m : Store) (k : String) (v : StoredVal) :
    getItem (setItem m k v) k = some v := by
  simp [setItem, getItem]

/-- Reading a key just removed finds nothing. -/
theorem getItem_removeItem_self (m : Store) (k : String) :
    getItem (removeItem m k) k = none := by
  induction m with
  | nil => rfl
  | cons p t ih =>
    by_cases h : p.1 == k
    · simpa [removeItem, h] using ih
    · simpa [removeItem, getItem, h] using ih

/-- The post-login redirect policy as the specification words it: an admin
session on one of the two login pages goes to the admin dashboard and is
otherwise left alone; a non-admin or absent session is warned away from the
admin login page and turned back from the admin dashboard, and every other
case performs no navigation. This definition is written from the claim text
for comparison with redirectAfterLogin, which is written from the source. -/
def redirectPolicySpec (session : Option SessionData) (path : String) : List Effect :=
  match session with
  | some s =>
    if s.isAdmin then
      if jsIncludes path "admin-login" || jsIncludes path "user-login" then
        [Effect.navigate "admin-dashboard.html"]
      else
        []
    else
      if jsIncludes path "admin-login" then
        [Effect.notify "Please use user login" "warning",
         Effect.navigate "user-login.html"]
      else if jsIncludes path "admin-dashboard" then
        [Effect.notify "Admin access required" "error",
         Effect.navigate "user-login.html"]
      else
        []
  | none =>
      if jsIncludes path "admin-login" then
        [Effect.notify "Please use user login" "warning",
         Effect.navigate "user-login.html"]
      else if jsIncludes path "admin-dashboard" then
        [Effect.notify "Admin access required" "error",
         Effect.navigate "user-login.html"]
      else
        []

/-- Concrete user handle for witnesses and counterexamples. -/
def u0 : User :=
  { uid := "u-1", email := "a@b.co", displayName := none }

/-- State with no user and empty storage tiers. -/
def emptyState : AuthState :=
  { currentUser := none, isAdmin := false, localS := [], sessionS := [] }

/-- State whose only sign of authentication is the in-memory user: both
storage tiers are empty. -/
def memOnlyState : AuthState :=
  { currentUser := some u0, isAdmin := false, localS := [], sessionS := [] }

/-- Concrete admin Session Record. -/
def adminSession0 : SessionData :=
  { userId := "u-1", email := "a@b.co", displayName := none, isAdmin := true,
    role := some "manager", permissions := ["all"], loginTime := 3 }

/-- State holding an admin Session Record in the durable tier. -/
def adminState0 : AuthState :=
  { currentUser := none, isAdmin := false,
    localS := [(sessionKey, StoredVal.sess adminSession0)], sessionS := [] }

/-- State whose durable tier holds a string that is not a serialized
Session Record under the session key. -/
def malformedState : AuthState :=
  { currentUser := none, isAdmin := false,
    localS := [(sessionKey, StoredVal.str "not-json")], sessionS := [] }

/-- Concrete adminUsers document whose isActive flag is false. -/
def adminDoc0 : AdminDoc :=
  { adminId := "a-1", email := "admin@b.co", role := "manager",
    permissions := ["all"], isActive := false, createdAt := 0, lastLogin := 0 }

/-- Concrete adminUsers collection holding the inactive document. -/
def adminDb1 : AdminDb := [("u-admin", adminDoc0)]

/-- C10: checkAdminRole reports isAdmin true exactly when a document for
the user id exists in the adminUsers collection, regardless of the
document's contents — for any existing document it returns isAdmin true
together with the stored role and permissions, whatever the isActive flag
says — and reports isAdmin false when no document exists or when the
lookup errors. -/
theorem checkAdminRole_existence (db : AdminDb) (userId : String) :
    ((checkAdminRole db false userId).isAdmin = (dbLookup db userId).isSome)
    ∧ (∀ d, dbLookup db userId = some d →
        checkAdminRole db false userId
          = { isAdmin := true, role := some d.role,
              permissions := some d.permissions, error := none })
    ∧ (dbLookup db userId = none →
        checkAdminRole db false userId
          = { isAdmin := false, role := none, permissions := none, error := none })
    ∧ ((checkAdminRole db true userId).isAdmin = false) := by
  refine ⟨?_, ?_, ?_, rfl⟩
  · cases h : dbLookup db userId <;> simp [checkAdminRole, h]
  · intro d hd
    simp [checkAdminRole, hd]
  · intro hn
    simp [checkAdminRole, hn]

/-- Witness for C10 at a concrete collection: a document whose isActive
flag is false still yields isAdmin true together with its stored role and
permissions. -/
theorem checkAdminRole_existence_witness :
    adminDoc0.isActive = false
    ∧ checkAdminRole adminDb1 false "u-admin"
      = { isAdmin := true, role := some "manager",
          permissions := some ["all"], error := none } :=
  ⟨rfl, (checkAdminRole_existence adminDb1 "u-admin").2.1 adminDoc0 rfl⟩

/-- C9: when the value read for the session key (durable tier first, then
the per-tab fallback) is not a serialized Session Record, getStoredSession
catches the parse failure and returns null instead of propagating it, so
with no in-memory user the caller counts as unauthenticated. -/
theorem getStoredSession_parseFailure (st : AuthState) (raw : String)
    (h : jsOrVal (getItem st.localS sessionKey) (getItem st.sessionS sessionKey)
      = some (StoredVal.str raw)) :
    getStoredSession st = none
    ∧ (st.currentUser = none → isAuthenticated st = false) := by
  have h1 : getStoredSession st = none := by
    simp only [getStoredSession, h, parseSession]
    split <;> rfl
  refine ⟨h1, fun hc => ?_⟩
  simp [isAuthenticated, hc, h1]

/-- Witness for C9: a durable tier holding a non-JSON string under the
session key yields no session and an unauthenticated caller. -/
theorem getStoredSession_parseFailure_witness :
    getStoredSession malformedState = none ∧ isAuthenticated malformedState = false := by
  have h := getStoredSession_parseFailure malformedState "not-json" rfl
  exact ⟨h.1, h.2 rfl⟩

/-- C4: storeUserSession writes the Session Record only to the durable
tier (the per-tab tier and the in-memory fields are untouched);
getStoredSession reads the durable tier first and falls back to the
per-tab tier; writing a record and reading it back yields it equal on
every field; clearUserSession removes the record from both tiers, after
which reads find nothing. -/
theorem sessionStore_discipline (st : AuthState) (user : User)
    (adminCheck : AdminCheck) (now : Nat) (s s2 : SessionData) :
    ((storeUserSession st user adminCheck now).sessionS = st.sessionS)
    ∧ ((storeUserSession st user adminCheck now).currentUser = st.currentUser)
    ∧ (getItem (storeUserSession st user adminCheck now).localS sessionKey
        = some (StoredVal.sess (mkSessionData user adminCheck now)))
    ∧ (getStoredSession (storeUserSession st user adminCheck now)
        = some (mkSessionData user adminCheck now))
    ∧ (getItem st.localS sessionKey = some (StoredVal.sess s) →
        getStoredSession st = some s)
    ∧ (getItem st.localS sessionKey = none →
        getItem st.sessionS sessionKey = some (StoredVal.sess s2) →
        getStoredSession st = some s2)
    ∧ (getItem (clearUserSession st).localS sessionKey = none)
    ∧ (getItem (clearUserSession st).sessionS sessionKey = none)
    ∧ (getStoredSession (clearUserSession st) = none) := by
  refine ⟨rfl, rfl, getItem_setItem_self _ _ _, ?_, ?_, ?_, ?_, ?_, ?_⟩
  · simp [getStoredSession, storeUserSession, getItem_setItem_self, jsOrVal,
      truthyVal, parseSession]
  · intro h
    simp [getStoredSession, h, jsOrVal, truthyVal, parseSession]
  · intro h1 h2
    simp [getStoredSession, h1, h2, jsOrVal, truthyVal, parseSession]
  · exact getItem_removeItem_self _ _
  · exact getItem_removeItem_self _ _
  · simp [getStoredSession, clearUserSession, getItem_removeItem_self, jsOrVal]

/-- Witness for C4 at concrete values: a freshly stored record reads back
whole, a record in the durable tier is returned, and clearing a state that
holds a record leaves nothing behind. -/
theorem sessionStore_discipline_witness :
    getStoredSession (storeUserSession emptyState u0 { isAdmin := false } 5)
      = some (mkSessionData u0 { isAdmin := false } 5)
    ∧ getStoredSession adminState0 = some adminSession0
    ∧ getStoredSession (clearUserSession adminState0) = none := by
  obtain ⟨-, -, -, h4, -, -, -, -, -⟩ :=
    sessionStore_discipline emptyState u0 { isAdmin := false } 5 adminSession0 adminSession0
  obtain ⟨-, -, -, -, h5, -, -, -, h9⟩ :=
    sessionStore_discipline adminState0 u0 { isAdmin := false } 5 adminSession0 adminSession0
  exact ⟨h4, h5 rfl, h9⟩

/-- C2: the post-login redirect equals the worded policy — an admin
session on one of the two login pages navigates to the admin dashboard, a
non-admin or absent session is warned off the admin login page and turned
back from the admin dashboard, every other case navigates nowhere — and in
particular an admin session on a page containing neither login substring
produces no effect at all. -/
theorem redirectAfterLogin_policy (st : AuthState) (path : String) :
    (redirectAfterLogin st path = redirectPolicySpec (getStoredSession st) path)
    ∧ (∀ s, getStoredSession st = some s → s.isAdmin = true →
        jsIncludes path "admin-login" = false → jsIncludes path "user-login" = false →
        redirectAfterLogin st path = []) := by
  constructor
  · cases h : getStoredSession st with
    | none => simp [redirectAfterLogin, redirectPolicySpec, h, optSessionIsAdmin]
    | some s =>
      cases ha : s.isAdmin <;>
        simp [redirectAfterLogin, redirectPolicySpec, h, optSessionIsAdmin, ha]
  · intro s hs ha h1 h2
    simp [redirectAfterLogin, hs, optSessionIsAdmin, ha, h1, h2]

/-- Witness for C2: an admin session on a page that is neither login page
is left untouched. -/
theorem redirectAfterLogin_policy_witness :
    redirectAfterLogin adminState0 "stations.html" = [] :=
  (redirectAfterLogin_policy adminState0 "stations.html").2 adminSession0 rfl rfl
    (by decide) (by decide)

/-- C1 counterexample: a caller that is authenticated through the
in-memory user alone (both storage tiers empty) and asks for the user role
is still rejected — validateAuth returns false and redirects to the user
login page — because the gate also demands a stored session record, so the
claimed in-particular consequence fails. -/
theorem validateAuth_memOnly_counterexample :
    isAuthenticated memOnlyState = true
    ∧ (validateAuth memOnlyState "index.html" "user").1 = false
    ∧ (validateAuth memOnlyState "index.html" "user").2.1
      = [Effect.navigate "user-login.html"] :=
  ⟨rfl, rfl, rfl⟩

/-- C1 (amended): validateAuth returns true exactly when a stored session
record is readable and the admin condition does not apply. When no session
record is readable — even if the in-memory user is set and the caller thus
counts as authenticated — it stashes the path and redirects to the login
page of the required role, returning false; when admin is required and the
session is not admin, it notifies, redirects to admin login, and returns
false; otherwise it returns true with no effects and an unchanged state. -/
theorem validateAuth_gate (st : AuthState) (path requiredRole : String) :
    (getStoredSession st = none →
      validateAuth st path requiredRole
        = (false,
           [Effect.navigate
             (if requiredRole == "admin" then "admin-login.html" else "user-login.html")],
           { st with sessionS := setItem st.sessionS intendedKey (StoredVal.str path) }))
    ∧ (∀ s, getStoredSession st = some s → requiredRole = "admin" → s.isAdmin = false →
        validateAuth st path requiredRole
          = (false,
             [Effect.notify "Admin access required" "error",
              Effect.navigate "admin-login.html"],
             { st with sessionS := setItem st.sessionS intendedKey (StoredVal.str path) }))
    ∧ (∀ s, getStoredSession st = some s → (requiredRole = "admin" → s.isAdmin = true) →
        validateAuth st path requiredRole = (true, [], st)) := by
  refine ⟨?_, ?_, ?_⟩
  · intro h
    simp [validateAuth, h, redirectToLogin]
  · intro s hs hr ha
    simp [validateAuth, hs, isAuthenticated, optSessionIsAdmin, hr, ha, redirectToLogin]
  · intro s hs himp
    by_cases hr : requiredRole = "admin"
    · simp [validateAuth, hs, isAuthenticated, optSessionIsAdmin, hr, himp hr]
    · simp [validateAuth, hs, isAuthenticated, optSessionIsAdmin, hr]

/-- Witness for C1 (amended): on the empty state the gate fails and
redirects to the user login page. -/
theorem validateAuth_gate_witness :
    getStoredSession emptyState = none
    ∧ validateAuth emptyState "page.html" "user"
      = (false,
         [Effect.navigate
           (if ("user" : String) == "admin" then "admin-login.html" else "user-login.html")],
         { emptyState with
             sessionS := setItem emptyState.sessionS intendedKey (StoredVal.str "page.html") }) :=
  ⟨rfl, (validateAuth_gate emptyState "page.html" "user").1 rfl⟩

/-- C3 counterexample: a role-lookup error during login never reaches the
handler's failure path — checkAdminRole swallows it — so at a concrete
input the handler emits the success notification rather than a failure
one, sets currentUser, and writes a session record: the prior session
state is not left untouched. -/
theorem handleUserLogin_failure_counterexample :
    ((handleUserLogin [] true false u0 7 "index.html" emptyState).2
      = [Effect.notify "Authentication successful!" "success"])
    ∧ ((handleUserLogin [] true false u0 7 "index.html" emptyState).1.currentUser = some u0)
    ∧ (getItem (handleUserLogin [] true false u0 7 "index.html" emptyState).1.localS sessionKey
      = some (StoredVal.sess
          (mkSessionData u0
            { isAdmin := false, role := none, permissions := none,
              error := some "lookup error" } 7))) := by
  decide

/-- C3 (amended): only an exception thrown after the role lookup — the
storage write — reaches the catch block, which emits the failure
notification and leaves the persisted Session Record untouched; but the
in-memory currentUser has already been set to the incoming user and
isAdmin to the lookup result. A role-lookup error is absorbed inside
checkAdminRole, so the handler proceeds to write a non-admin Session
Record and emits a success notification. -/
theorem handleUserLogin_failure (db : AdminDb) (user : User) (now : Nat)
    (path : String) (st : AuthState) :
    (∀ lookupFails,
      ((handleUserLogin db lookupFails true user now path st).2
        = [Effect.notify "Authentication failed" "error"])
      ∧ ((handleUserLogin db lookupFails true user now path st).1.localS = st.localS)
      ∧ ((handleUserLogin db lookupFails true user now path st).1.sessionS = st.sessionS)
      ∧ ((handleUserLogin db lookupFails true user now path st).1.currentUser = some user)
      ∧ ((handleUserLogin db lookupFails true user now path st).1.isAdmin
          = (checkAdminRole db lookupFails user.uid).isAdmin))
    ∧ ((handleUserLogin db true false user now path st).2.head?
        = some (Effect.notify "Authentication successful!" "success"))
    ∧ ((handleUserLogin db true false user now path st).1.currentUser = some user)
    ∧ ((handleUserLogin db true false user now path st).1.isAdmin = false)
    ∧ (getItem (handleUserLogin db true false user now path st).1.localS sessionKey
        = some (StoredVal.sess (mkSessionData user (checkAdminRole db true user.uid) now))) :=
  ⟨fun _ => ⟨rfl, rfl, rfl, rfl, rfl⟩, rfl, rfl, rfl, getItem_setItem_self _ _ _⟩

/-- C5 counterexample: validate on the empty email value returns isValid
true, not false — the empty string is falsy, so the pattern check is
skipped, and no built-in rule defines required. -/
theorem validate_empty_email_counterexample :
    (validate "Email" "" "email").isValid = true :=
  rfl

/-- C5 (amended): validate accepts the email "a@b.co" and rejects
"not-an-email", accepts the phone "+1234567890" and rejects "123"; on the
empty string the email rule reports valid, not invalid, since the empty
value short-circuits every check. -/
theorem validate_email_phone_cases (label : String) :
    ((validate label "a@b.co" "email").isValid = true)
    ∧ ((validate label "not-an-email" "email").isValid = false)
    ∧ ((validate label "" "email").isValid = true)
    ∧ ((validate label "+1234567890" "phone").isValid = true)
    ∧ ((validate label "123" "phone").isValid = false) :=
  ⟨rfl, rfl, rfl, rfl, rfl⟩

/-- C6: none of the built-in rule sets defines the required flag, and the
empty (falsy) value skips the pattern and minLength checks, so for every
label the empty string validates successfully under each built-in kind. -/
theorem validate_empty_always_valid (label : String) :
    (validate label "" "email" = { isValid := true, message := none })
    ∧ (validate label "" "phone" = { isValid := true, message := none })
    ∧ (validate label "" "password" = { isValid := true, message := none })
    ∧ (((vRules "email").map (fun r => r.required)) = some false)
    ∧ (((vRules "phone").map (fun r => r.required)) = some false)
    ∧ (((vRules "password").map (fun r => r.required)) = some false) :=
  ⟨rfl, rfl, rfl, rfl, rfl, rfl⟩

/-- Level of the feedback as a function of the strength thresholds. -/
theorem getPasswordFeedback_level (n : Nat) (r : Requirements) :
    (getPasswordFeedback n r).level
      = (if n < 2 then "weak" else if n < 4 then "medium"
         else if n < 5 then "strong" else "very-strong") := by
  unfold getPasswordFeedback
  split_ifs <;> rfl

/-- C7: the strength score is the count of true requirement flags, hence
at most five; isStrong holds exactly from four up; and the level is weak
below two, medium below four, strong below five, and very-strong at five —
so a password meeting exactly four of the five rules is strong. -/
theorem passwordStrength_thresholds (password : String) :
    ((validatePasswordStrength password).strength
      = [(validatePasswordStrength password).requirements.minLength,
         (validatePasswordStrength password).requirements.hasUppercase,
         (validatePasswordStrength password).requirements.hasLowercase,
         (validatePasswordStrength password).requirements.hasNumbers,
         (validatePasswordStrength password).requirements.hasSpecialChar].count true)
    ∧ ((validatePasswordStrength password).strength ≤ 5)
    ∧ ((validatePasswordStrength password).isStrong
        = decide (4 ≤ (validatePasswordStrength password).strength))
    ∧ ((validatePasswordStrength password).feedback.level
        = (if (validatePasswordStrength password).strength < 2 then "weak"
           else if (validatePasswordStrength password).strength < 4 then "medium"
           else if (validatePasswordStrength password).strength < 5 then "strong"
           else "very-strong")) := by
  refine ⟨rfl, ?_, rfl, ?_⟩
  · simpa [strengthOf] using
      List.count_le_length true
        [(reqOf password).minLength, (reqOf password).hasUppercase,
         (reqOf password).hasLowercase, (reqOf password).hasNumbers,
         (reqOf password).hasSpecialChar]
  · exact getPasswordFeedback_level (strengthOf (reqOf password)) (reqOf password)

/-- C8: the feedback list contains exactly the message of each unmet
requirement and none for a met one, in the fixed rule order (length,
uppercase, lowercase, number, special), and its length plus the strength
score is five. -/
theorem passwordFeedback_unmet (password : String) :
    ((validatePasswordStrength password).feedback.feedback
      = (if (validatePasswordStrength password).requirements.minLength then []
         else ["At least 8 characters"]) ++
        (if (validatePasswordStrength password).requirements.hasUppercase then []
         else ["One uppercase letter"]) ++
        (if (validatePasswordStrength password).requirements.hasLowercase then []
         else ["One lowercase letter"]) ++
        (if (validatePasswordStrength password).requirements.hasNumbers then []
         else ["One number"]) ++
        (if (validatePasswordStrength password).requirements.hasSpecialChar then []
         else ["One special character"]))
    ∧ ((validatePasswordStrength password).feedback.feedback.length
        + (validatePasswordStrength password).strength = 5) := by
  rcases hr : reqOf password with ⟨a, b, c, d, e⟩
  have h : validatePasswordStrength password
      = { requirements := ⟨a, b, c, d, e⟩,
          strength := strengthOf ⟨a, b, c, d, e⟩,
          isStrong := decide (4 ≤ strengthOf ⟨a, b, c, d, e⟩),
          feedback := getPasswordFeedback (strengthOf ⟨a, b, c, d, e⟩) ⟨a, b, c, d, e⟩ } := by
    simp [validatePasswordStrength, hr]
  rw [h]
  cases a <;> cases b <;> cases c <;> cases d <;> cases e <;> decide
